import Mathlib

/-!
Verification development for the interactive takeoff canvas of the
Structura construction-estimation front end (source: src/pages/Takeoff.tsx).
JavaScript numbers are modelled as real numbers; lists of points model the
point arrays of the source. Each definition below is a direct translation
of the correspondingly named function or handler of the source file.
-/

namespace Structura

noncomputable section

/-- A point of a manual takeoff measurement, in document (unscaled)
coordinates; source interface `AnnotationPoint`. -/
structure AnnotationPoint where
  x : ℝ
  y : ℝ

/-- The default point used for out-of-bounds list reads in the index-based
loop translations below; the loops of the source never read out of bounds,
so this value is never produced. -/
def origin : AnnotationPoint := ⟨0, 0⟩

/-- The `type` field of the source `Annotation` interface:
`'count' | 'linear' | 'area' | 'scale'`. -/
inductive AnnotKind
  | count
  | linear
  | area
  | scale
deriving DecidableEq

/-- The source `ToolType`:
`'select' | 'pan' | 'count' | 'linear' | 'area' | 'scale'`. -/
inductive ToolType
  | select
  | pan
  | count
  | linear
  | area
  | scale
deriving DecidableEq

/-- Source interface `Annotation` (the optional, never-written `label` field
is omitted). -/
structure Annotation where
  id : String
  type : AnnotKind
  points : List AnnotationPoint
  color : String
  completed : Bool
  page : ℕ

/-- Source interface `EstimationItem` from types.ts (`notes` is optional
there; `addItemFromAnnotation` always sets it, so it is a plain field
here). -/
structure EstimationItem where
  id : String
  description : String
  quantity : ℝ
  unit : String
  unitCost : ℝ
  totalCost : ℝ
  category : String
  notes : String

/-- Source `calculateDistance`: Euclidean distance
`Math.sqrt(Math.pow(p2.x - p1.x, 2) + Math.pow(p2.y - p1.y, 2))`. -/
def calculateDistance (p1 p2 : AnnotationPoint) : ℝ :=
  Real.sqrt ((p2.x - p1.x) ^ 2 + (p2.y - p1.y) ^ 2)

/-- Source `calculatePathLength`: the loop
`for (i = 0; i < points.length - 1; i++) length += distance(points[i], points[i+1])`. -/
def calculatePathLength (points : List AnnotationPoint) : ℝ :=
  ∑ i in Finset.range (points.length - 1),
    calculateDistance (points.getD i origin) (points.getD (i + 1) origin)

/-- One term of the shoelace sum of `calculatePolygonArea`:
`(p1.x * p2.y) - (p2.x * p1.y)`. -/
def crossTerm (p1 p2 : AnnotationPoint) : ℝ :=
  p1.x * p2.y - p2.x * p1.y

/-- The accumulated `area` variable of source `calculatePolygonArea`: the loop
`for (i = 0; i < points.length; i++) area += cross(points[i], points[(i+1) % points.length])`. -/
def shoelaceSum (points : List AnnotationPoint) : ℝ :=
  ∑ i in Finset.range points.length,
    crossTerm (points.getD i origin) (points.getD ((i + 1) % points.length) origin)

/-- Source `calculatePolygonArea`: `Math.abs(area / 2)` of the shoelace sum. -/
def calculatePolygonArea (points : List AnnotationPoint) : ℝ :=
  |shoelaceSum points / 2|

/-- Sum of `f` over consecutive (open, non-wrapping) pairs of a point list;
recursive counterpart of the index loops of `calculatePathLength` and of the
non-wrapping part of `calculatePolygonArea`. -/
def pairSum (f : AnnotationPoint → AnnotationPoint → ℝ) : List AnnotationPoint → ℝ
  | [] => 0
  | [_] => 0
  | p :: q :: rest => f p q + pairSum f (q :: rest)

/-- The shoelace formula over the closed ring, phrased the way the spec
describes it: the cross terms of consecutive points, plus the closing term
that implicitly connects the last point back to the first. -/
def closedRingShoelace (points : List AnnotationPoint) (h : points ≠ []) : ℝ :=
  pairSum crossTerm points + crossTerm (points.getLast h) (points.head h)

/-- The component state of the Takeoff page, restricted to the fields the
takeoff-canvas subsystem reads or writes. `selectedFile` models whether a
file is loaded (non-null in the source). Initial values follow the
`useState` initializers of the source. -/
structure TakeoffState where
  selectedFile : Bool
  activeTool : ToolType
  annotations : List Annotation
  currentAnnotation : Option Annotation
  items : List EstimationItem
  scaleRatio : ℝ
  scaleUnit : String
  isCalibrating : Bool
  zoomLevel : ℝ
  panOffset : ℝ × ℝ
  isDragging : Bool
  dragStart : ℝ × ℝ
  pageNum : ℕ
  planDimensions : ℝ × ℝ

/-- Source `getPointFromEvent`: the pointer position relative to the
transformed container, divided by the zoom level
(`x = clientX / zoomLevel; y = clientY / zoomLevel`). -/
def getPointFromEvent (st : TakeoffState) (clientX clientY : ℝ) : AnnotationPoint :=
  ⟨clientX / st.zoomLevel, clientY / st.zoomLevel⟩

/-- The color literal chosen in `handleCanvasMouseDown` for a new in-progress
measurement: `activeTool === 'scale' ? '#eab308' : activeTool === 'area' ? '#22c55e' : '#38bdf8'`. -/
def annotColor (t : ToolType) : String :=
  if t = ToolType.scale then "#eab308"
  else if t = ToolType.area then "#22c55e"
  else "#38bdf8"

/-- The unchecked cast `activeTool as Annotation['type']` in
`handleCanvasMouseDown`; it is only evaluated when the active tool is one of
the four drawing tools, so the values for `select` and `pan` are never
produced. -/
def toolKind : ToolType → AnnotKind
  | ToolType.count => AnnotKind.count
  | ToolType.linear => AnnotKind.linear
  | ToolType.area => AnnotKind.area
  | ToolType.scale => AnnotKind.scale
  | ToolType.select => AnnotKind.count
  | ToolType.pan => AnnotKind.count

/-- The `desc` variable of source `addItemFromAnnotation` ("Manual Item" is
the initializer left in place when no branch matches). -/
def annotDesc : AnnotKind → String
  | AnnotKind.count => "Manual Count"
  | AnnotKind.linear => "Linear Measurement"
  | AnnotKind.area => "Area Measurement"
  | AnnotKind.scale => "Manual Item"

/-- The `qty` variable of source `addItemFromAnnotation`, before rounding:
count is 1; linear is the path length, divided by `scaleRatio` when
`scaleRatio > 0`; area is the polygon area, divided by
`scaleRatio * scaleRatio` when `scaleRatio > 0`; the initializer 0 is left
in place for a scale annotation (no branch matches). -/
def annotQty (scaleRatio : ℝ) (annot : Annotation) : ℝ :=
  match annot.type with
  | AnnotKind.count => 1
  | AnnotKind.linear =>
      let pxLen := calculatePathLength annot.points
      if scaleRatio > 0 then pxLen / scaleRatio else pxLen
  | AnnotKind.area =>
      let pxArea := calculatePolygonArea annot.points
      if scaleRatio > 0 then pxArea / (scaleRatio * scaleRatio) else pxArea
  | AnnotKind.scale => 0

/-- The `unit` variable of source `addItemFromAnnotation` ("ea" is the
initializer, kept for count and for the unmatched scale case). -/
def annotUnit (scaleRatio : ℝ) (scaleUnit : String) (annot : Annotation) : String :=
  match annot.type with
  | AnnotKind.count => "ea"
  | AnnotKind.linear => if scaleRatio > 0 then scaleUnit else "px"
  | AnnotKind.area => if scaleRatio > 0 then "sq " ++ scaleUnit else "sq px"
  | AnnotKind.scale => "ea"

/-- The rounding `parseFloat(qty.toFixed(2))` of the source: round to two
decimal places. -/
def round2 (x : ℝ) : ℝ :=
  ((round (x * 100) : ℤ) : ℝ) / 100

/-- Source `addItemFromAnnotation`: the `EstimationItem` built from a
completed manual measurement under the current calibration. -/
def addItemFromAnnotation (scaleRatio : ℝ) (scaleUnit : String)
    (annot : Annotation) : EstimationItem :=
  { id := annot.id
    description := annotDesc annot.type
    quantity := round2 (annotQty scaleRatio annot)
    unit := annotUnit scaleRatio scaleUnit annot
    category := "Manual Takeoff"
    unitCost := 0
    totalCost := 0
    notes := "Page " ++ toString annot.page }

/-- Source `finishCalibration`: if the drawn reference segment has pixel
length 0 the state is unchanged; otherwise `scaleRatio` is overwritten with
`pxDist / knownDist` (with no check that `knownDist` is positive; in
JavaScript `pxDist / 0` is `Infinity`, in this real-number model division by
zero yields 0 — in both semantics the stored ratio is overwritten). -/
def finishCalibration (st : TakeoffState) (annot : Annotation)
    (knownDist : ℝ) : TakeoffState :=
  let pxDist := calculatePathLength annot.points
  if pxDist = 0 then st
  else { st with scaleRatio := pxDist / knownDist, isCalibrating := false }

/-- Source `handleCanvasMouseDown` for a pointer-down at container-relative
position `(clientX, clientY)` with mouse button `button`; `newId` stands for
the generated id `manual-${Date.now()}`. -/
def handleCanvasMouseDown (st : TakeoffState) (clientX clientY : ℝ)
    (button : ℕ) (newId : String) : TakeoffState :=
  if st.selectedFile = false then st
  else if st.activeTool = ToolType.pan ∨
      (st.activeTool = ToolType.select ∧ button = 1) then
    { st with isDragging := true,
              dragStart := (clientX - st.panOffset.1, clientY - st.panOffset.2) }
  else if st.activeTool = ToolType.count ∨ st.activeTool = ToolType.linear ∨
      st.activeTool = ToolType.area ∨ st.activeTool = ToolType.scale then
    let point := getPointFromEvent st clientX clientY
    if st.activeTool = ToolType.count then
      let newAnnot : Annotation :=
        { id := newId, type := AnnotKind.count, points := [point],
          color := "#ef4444", completed := true, page := st.pageNum }
      { st with annotations := st.annotations ++ [newAnnot],
                items := st.items ++
                  [ addItemFromAnnotation st.scaleRatio st.scaleUnit newAnnot] }
    else
      match st.currentAnnotation with
      | none =>
          { st with currentAnnotation :=
              (some { id := newId, type := toolKind st.activeTool,
                      points := [point], color := annotColor st.activeTool,
                      completed := false, page := st.pageNum }) }
      | some ca =>
          { st with currentAnnotation :=
              (some { ca with points := ca.points ++ [point] }) }
  else st

/-- Source `handleCanvasMouseMove`: while dragging, the pan offset follows
the pointer; otherwise nothing changes. -/
def handleCanvasMouseMove (st : TakeoffState) (clientX clientY : ℝ) :
    TakeoffState :=
  if st.isDragging then
    { st with panOffset := (clientX - st.dragStart.1, clientY - st.dragStart.2) }
  else st

/-- Source `handleCanvasMouseUp`. -/
def handleCanvasMouseUp (st : TakeoffState) : TakeoffState :=
  { st with isDragging := false }

/-- Source `handleCanvasDoubleClick`, the finish gesture. `promptValue`
models the user's answer to the known-distance prompt in the scale branch:
`some d` when the entered string is nonempty and parses to the number `d`,
`none` when the prompt is cancelled or the input does not parse. -/
def handleCanvasDoubleClick (st : TakeoffState) (promptValue : Option ℝ) :
    TakeoffState :=
  match st.currentAnnotation with
  | none => st
  | some ca =>
    if ca.completed then st
    else if st.activeTool = ToolType.scale then
      if ca.points.length < 2 then st
      else
        let st1 := match promptValue with
          | some d => finishCalibration st ca d
          | none => st
        { st1 with currentAnnotation := none, activeTool := ToolType.select }
    else
      let finalAnnot := { ca with completed := true }
      { st with annotations := st.annotations ++ [finalAnnot],
                items := st.items ++
                  [ addItemFromAnnotation st.scaleRatio st.scaleUnit finalAnnot],
                currentAnnotation := none }

/-- One tool-palette button click (source: `onClick={() => setActiveTool(t)}`
on each `ToolButton`); nothing but the active tool changes. -/
def selectToolAction (st : TakeoffState) (t : ToolType) : TakeoffState :=
  { st with activeTool := t }

/-- The zoom-in toolbar button: `setZoomLevel(Math.min(5, zoomLevel + 0.1))`. -/
def zoomInClick (st : TakeoffState) : TakeoffState :=
  { st with zoomLevel := min 5 (st.zoomLevel + 0.1) }

/-- The zoom-out toolbar button: `setZoomLevel(Math.max(0.1, zoomLevel - 0.1))`. -/
def zoomOutClick (st : TakeoffState) : TakeoffState :=
  { st with zoomLevel := max 0.1 (st.zoomLevel - 0.1) }

/-- Source `fitToScreen`: the `(zoomLevel, panOffset)` pair it stores. Note
that the pan offset is computed from the unclamped `newScale`, not from the
clamped zoom that is stored. -/
def fitToScreen (w h containerW containerH : ℝ) : ℝ × (ℝ × ℝ) :=
  let pad : ℝ := 60
  let scaleW := (containerW - pad) / w
  let scaleH := (containerH - pad) / h
  let newScale := min scaleW scaleH
  let finalW := w * newScale
  let finalH := h * newScale
  (max 0.05 (min newScale 1.5),
    ((containerW - finalW) / 2, (containerH - finalH) / 2))

/-- Source `fitToScreen` as a state update. -/
def fitToScreenAction (st : TakeoffState) (w h containerW containerH : ℝ) :
    TakeoffState :=
  { st with zoomLevel := (fitToScreen w h containerW containerH).1,
            panOffset := (fitToScreen w h containerW containerH).2 }

/-- The slice of component state involved in PDF page rendering: the
requested page (`pageNum`), the set of render operations still in flight
(each in-flight call to `renderPdfPage`, tagged with the page it renders),
and the dimensions last stored by `setPlanDimensions`. -/
structure PdfViewState where
  pageNum : ℕ
  pending : List ℕ
  planDimensions : ℝ × ℝ

/-- An asynchronous event of the paging subsystem: a page change (source
`changePage`/`setPageNum`, whose `useEffect` starts `renderPdfPage` for that
page), or the completion of an in-flight render, which stores that page's
dimensions via `setPlanDimensions`. -/
inductive RenderEvent
  | request (page : ℕ)
  | complete (page : ℕ)

/-- One event step of the paging subsystem. `dims page` is the natural size
of `page` as rendered at scale 2.0. A completion applies its result
unconditionally — the source `renderPdfPage` has no generation counter or
cancellation, so it never checks whether its page is still the requested
one. -/
def renderStep (dims : ℕ → ℝ × ℝ) (st : PdfViewState) :
    RenderEvent → PdfViewState
  | RenderEvent.request p => { st with pageNum := p, pending := st.pending ++ [p] }
  | RenderEvent.complete p =>
      if p ∈ st.pending then
        { st with pending := st.pending.erase p, planDimensions := dims p }
      else st

/-- A run of the paging subsystem over a sequence of events. -/
def runRenderEvents (dims : ℕ → ℝ × ℝ) (st : PdfViewState)
    (events : List RenderEvent) : PdfViewState :=
  events.foldl (renderStep dims) st

/-- Quantity of the spec's Quantity Derivation, modelled from the spec's
words for the refinement claim about `addItemFromAnnotation`: Count is 1;
Linear is `pathLength(points)`, divided by `pixelsPerUnit` when calibrated
(`pixelsPerUnit > 0`); Area is `polygonArea(points)`, divided by
`pixelsPerUnit²` when calibrated. Calibration annotations produce no line
item, so the scale case is arbitrary (0). -/
def specQuantity (pixelsPerUnit : ℝ) (annot : Annotation) : ℝ :=
  match annot.type with
  | AnnotKind.count => 1
  | AnnotKind.linear =>
      if pixelsPerUnit > 0 then calculatePathLength annot.points / pixelsPerUnit
      else calculatePathLength annot.points
  | AnnotKind.area =>
      if pixelsPerUnit > 0 then calculatePolygonArea annot.points / pixelsPerUnit ^ 2
      else calculatePolygonArea annot.points
  | AnnotKind.scale => 0

/-- Unit of the spec's Quantity Derivation, modelled from the spec's words:
Count is "ea"; Linear is the calibration unit when calibrated, else "px";
Area is "sq " + calibration unit when calibrated, else "sq px". -/
def specUnit (pixelsPerUnit : ℝ) (unit : String) (annot : Annotation) : String :=
  match annot.type with
  | AnnotKind.count => "ea"
  | AnnotKind.linear => if pixelsPerUnit > 0 then unit else "px"
  | AnnotKind.area => if pixelsPerUnit > 0 then "sq " ++ unit else "sq px"
  | AnnotKind.scale => "ea"

/-- The component state right after a plan file has been loaded: the
`useState` initial values of the source, with a file present. -/
def loadedState : TakeoffState :=
  { selectedFile := true, activeTool := ToolType.select, annotations := [],
    currentAnnotation := none, items := [], scaleRatio := 0, scaleUnit := "ft",
    isCalibrating := false, zoomLevel := 1, panOffset := (0, 0),
    isDragging := false, dragStart := (0, 0), pageNum := 1,
    planDimensions := (800, 600) }

/-- A previously calibrated state: 10 pixels per unit. -/
def calibratedState : TakeoffState :=
  { loadedState with scaleRatio := 10 }

/-- A two-point scale reference segment from (0,0) to (3,4), of pixel
length 5. -/
def calibSegment : Annotation :=
  { id := "manual-0", type := AnnotKind.scale, points := [⟨0, 0⟩, ⟨3, 4⟩],
    color := "#eab308", completed := false, page := 1 }

/-- Reachable trace: choose the Linear tool and click once at (10, 10). -/
def oneClickLinearState : TakeoffState :=
  handleCanvasMouseDown (selectToolAction loadedState ToolType.linear)
    10 10 0 "manual-1"

/-- Reachable trace, continued: switch back to the Select tool (which keeps
the one-point in-progress measurement), then double-click. The two
mouse-downs of the double-click add no points under the Select tool. -/
def degenerateFinishState : TakeoffState :=
  handleCanvasDoubleClick (selectToolAction oneClickLinearState ToolType.select)
    none

/-- Reachable trace for the scale branch: choose the Scale tool, click once,
then double-click while it is still active (the prompt is never reached). -/
def scaleOneClickFinishState : TakeoffState :=
  handleCanvasDoubleClick
    (handleCanvasMouseDown (selectToolAction loadedState ToolType.scale)
      10 10 0 "manual-2")
    (some 10)

/-- Reachable trace: choose the Linear tool, click once, switch to the Area
tool, click again. -/
def crossToolClickState : TakeoffState :=
  handleCanvasMouseDown (selectToolAction oneClickLinearState ToolType.area)
    20 20 0 "manual-3"

/-- A completed triangular area measurement of pixel area 1. -/
def unitAreaTriangle : Annotation :=
  { id := "manual-4", type := AnnotKind.area,
    points := [⟨0, 0⟩, ⟨1, 0⟩, ⟨0, 2⟩],
    color := "#22c55e", completed := true, page := 1 }

/-- A completed two-point linear measurement from (0,0) to (50,0). -/
def fiftyPxSegment : Annotation :=
  { id := "manual-5", type := AnnotKind.linear, points := [⟨0, 0⟩, ⟨50, 0⟩],
    color := "#38bdf8", completed := true, page := 1 }

/-- A page-size table for the paging race example: page `p` renders to
natural size `(100·p, 200·p)`, so distinct pages have distinct sizes. -/
def examplePageDims (page : ℕ) : ℝ × ℝ :=
  ((page : ℝ) * 100, (page : ℝ) * 200)

/-- The paging race: starting on page 1, the user requests page 2 and then
page 3; page 3's render completes first and page 2's slower render completes
last, after it has been superseded. -/
def raceFinalState : PdfViewState :=
  runRenderEvents examplePageDims
    { pageNum := 1, pending := [], planDimensions := examplePageDims 1 }
    [RenderEvent.request 2, RenderEvent.request 3,
     RenderEvent.complete 3, RenderEvent.complete 2]

lemma range_pairSum (f : AnnotationPoint → AnnotationPoint → ℝ)
    (l : List AnnotationPoint) :
    ∑ i in Finset.range (l.length - 1),
      f (l.getD i origin) (l.getD (i + 1) origin) = pairSum f l := by
  induction l with
  | nil => simp [pairSum]
  | cons p t ih =>
    cases t with
    | nil => simp [pairSum]
    | cons q rest =>
      have hlen : (p :: q :: rest).length - 1 = rest.length + 1 := by
        simp
      rw [hlen, Finset.sum_range_succ']
      have hlen2 : (q :: rest).length - 1 = rest.length := by simp
      rw [hlen2] at ih
      simp only [List.getD_cons_succ, List.getD_cons_zero] at ih ⊢
      rw [ih]
      simp [pairSum]
      ring

lemma getD_zero_eq_head (l : List AnnotationPoint) (h : l ≠ []) :
    l.getD 0 origin = l.head h := by
  cases l with
  | nil => exact absurd rfl h
  | cons a t => rfl

lemma getD_pred_length_eq_getLast (l : List AnnotationPoint) (h : l ≠ []) :
    l.getD (l.length - 1) origin = l.getLast h := by
  induction l with
  | nil => exact absurd rfl h
  | cons a t ih =>
    cases t with
    | nil => rfl
    | cons b s =>
      have h2 : (b :: s) ≠ [] := by simp
      have : (a :: b :: s).length - 1 = (b :: s).length - 1 + 1 := by simp
      rw [this, List.getD_cons_succ, ih h2, List.getLast_cons h2]

lemma shoelaceSum_eq_closedRing (l : List AnnotationPoint) (h : l ≠ []) :
    shoelaceSum l = closedRingShoelace l h := by
  have hpos : 0 < l.length := List.length_pos.mpr h
  obtain ⟨n, hn⟩ : ∃ n, l.length = n + 1 :=
    ⟨l.length - 1, (Nat.succ_pred_eq_of_pos hpos).symm⟩
  rw [shoelaceSum, show Finset.range l.length = Finset.range (n + 1) from by rw [hn],
    Finset.sum_range_succ]
  have hsum : ∀ i ∈ Finset.range n,
      crossTerm (l.getD i origin) (l.getD ((i + 1) % l.length) origin)
        = crossTerm (l.getD i origin) (l.getD (i + 1) origin) := by
    intro i hi
    have hi2 : i + 1 < l.length := by
      have := Finset.mem_range.mp hi
      omega
    rw [Nat.mod_eq_of_lt hi2]
  rw [Finset.sum_congr rfl hsum]
  have hmod : (n + 1) % l.length = 0 := by
    rw [hn]
    exact Nat.mod_self _
  have hrange : n = l.length - 1 := by omega
  rw [hmod, hrange, range_pairSum, closedRingShoelace,
    getD_zero_eq_head l h, getD_pred_length_eq_getLast l h]

lemma pairSum_append_singleton (f : AnnotationPoint → AnnotationPoint → ℝ)
    (l : List AnnotationPoint) (h : l ≠ []) (a : AnnotationPoint) :
    pairSum f (l ++ [a]) = pairSum f l + f (l.getLast h) a := by
  induction l with
  | nil => exact absurd rfl h
  | cons p t ih =>
    cases t with
    | nil => simp [pairSum]
    | cons q rest =>
      have h2 : (q :: rest) ≠ [] := by simp
      have : (p :: q :: rest) ++ [a] = p :: ((q :: rest) ++ [a]) := by simp
      rw [this]
      show f p q + pairSum f ((q :: rest) ++ [a]) = _
      rw [ih h2, pairSum, List.getLast_cons h2]
      ring

lemma crossTerm_swap (p q : AnnotationPoint) : crossTerm q p = -crossTerm p q := by
  simp [crossTerm]

lemma pairSum_crossTerm_reverse (l : List AnnotationPoint) :
    pairSum crossTerm l.reverse = -pairSum crossTerm l := by
  induction l with
  | nil => simp [pairSum]
  | cons p t ih =>
    cases t with
    | nil => simp [pairSum]
    | cons q rest =>
      have h2 : (q :: rest).reverse ≠ [] := by simp
      rw [List.reverse_cons, pairSum_append_singleton crossTerm _ h2, ih]
      have hlast : ((q :: rest).reverse).getLast h2 = q := by
        rw [List.getLast_reverse]
        rfl
      rw [hlast, pairSum, crossTerm_swap]
      ring

lemma shoelaceSum_reverse (l : List AnnotationPoint) :
    shoelaceSum l.reverse = -shoelaceSum l := by
  cases l with
  | nil => simp [shoelaceSum]
  | cons a t =>
    have h : (a :: t) ≠ [] := by simp
    have h2 : (a :: t).reverse ≠ [] := by simp
    rw [shoelaceSum_eq_closedRing _ h2, shoelaceSum_eq_closedRing _ h,
      closedRingShoelace, closedRingShoelace, pairSum_crossTerm_reverse,
      List.getLast_reverse, List.head_reverse,
      crossTerm_swap ((a :: t).getLast h) ((a :: t).head h)]
    ring

lemma pathLength_pair (p q : AnnotationPoint) :
    calculatePathLength [p, q] = calculateDistance p q := by
  simp [calculatePathLength]

lemma sqrt_twentyfive : Real.sqrt 25 = 5 := by
  rw [show (25 : ℝ) = 5 ^ 2 by norm_num]
  exact Real.sqrt_sq (by norm_num)

lemma calibSegment_pathLength : calculatePathLength calibSegment.points = 5 := by
  show calculatePathLength [⟨0, 0⟩, ⟨3, 4⟩] = 5
  rw [pathLength_pair, calculateDistance]
  norm_num
  exact sqrt_twentyfive

/-- C1: the claim says finishing a calibration with `knownDistance = 0`
leaves the stored `pixelsPerUnit` (`scaleRatio`) unchanged. The source
`finishCalibration` only rejects a zero-length reference segment; it never
checks `knownDist`, so with a prior ratio of 10 and a length-5 segment it
overwrites the ratio with `5 / 0` (`Infinity` in JavaScript, 0 in this
real-number model) — in either semantics the stored ratio changes. -/
theorem finishCalibration_zero_distance_overwrites_ratio :
    (finishCalibration calibratedState calibSegment 0).scaleRatio ≠
      calibratedState.scaleRatio := by
  rw [finishCalibration]
  simp only [calibSegment_pathLength]
  norm_num [calibratedState, loadedState]

/-- C5: the claim says `fitToScreen` centers the content at the resulting
(clamped) zoom. For a 10×10 content in a 1000×1000 container the fit scale
is 94, clamped to a stored zoom of 1.5, but the pan offset (30, 30) centers
the hypothetical 940-pixel-wide unclamped content: at zoom 1.5 the displayed
content is 15 pixels wide, and centering it would need offset 492.5. -/
theorem fitToScreen_pan_not_centered_when_clamped :
    (fitToScreen 10 10 1000 1000).1 = 1.5
  ∧ (fitToScreen 10 10 1000 1000).2.1 = 30
  ∧ (1000 - 10 * (fitToScreen 10 10 1000 1000).1) / 2 = 492.5
  ∧ (fitToScreen 10 10 1000 1000).2.1 ≠
      (1000 - 10 * (fitToScreen 10 10 1000 1000).1) / 2 := by
  norm_num [fitToScreen, min_def, max_def]

/-- C8: zoom-in, zoom-out, drag-pan and fit-to-bounds change only the
viewport fields of the component state; the stored annotation set (hence
every stored document-space point) and the in-progress annotation are
untouched. -/
theorem zoom_pan_preserve_annotations (st : TakeoffState)
    (cx cy w h cw ch : ℝ) :
    (zoomInClick st).annotations = st.annotations
  ∧ TakeoffState.currentAnnotation (zoomInClick st) = st.currentAnnotation
  ∧ (zoomOutClick st).annotations = st.annotations
  ∧ TakeoffState.currentAnnotation (zoomOutClick st) = st.currentAnnotation
  ∧ (handleCanvasMouseMove st cx cy).annotations = st.annotations
  ∧ TakeoffState.currentAnnotation (handleCanvasMouseMove st cx cy) = st.currentAnnotation
  ∧ (fitToScreenAction st w h cw ch).annotations = st.annotations
  ∧ TakeoffState.currentAnnotation (fitToScreenAction st w h cw ch) = st.currentAnnotation := by
  refine ⟨rfl, rfl, rfl, rfl, ?_, ?_, rfl, rfl⟩ <;>
    · rw [handleCanvasMouseMove]
      split <;> rfl

/-- C9: the claim says a stale render result is never applied after a newer
page request has superseded it. The source `renderPdfPage` applies its
result unconditionally when its promise resolves, so in the race trace
(request page 2, request page 3, page 3's render finishes, page 2's render
finishes) the displayed plan dimensions end up as page 2's although page 3
is the current page. -/
theorem stale_render_applied_after_newer_request :
    raceFinalState.pageNum = 3
  ∧ raceFinalState.planDimensions = examplePageDims 2
  ∧ raceFinalState.planDimensions ≠ examplePageDims raceFinalState.pageNum := by
  refine ⟨rfl, rfl, ?_⟩
  show examplePageDims 2 ≠ examplePageDims 3
  norm_num [examplePageDims]

/-- C2: the claim says a finish with fewer than 2 points discards the
in-progress annotation, returns to Idle and produces nothing, and that an
annotation becomes completed only through a finish with at least 2 points.
In the source, the `< 2` guard exists only in the scale branch of
`handleCanvasDoubleClick`, and there it returns early *keeping* the
in-progress annotation (state stays Drawing); the linear/area branch has no
guard at all, so the reachable trace "Linear tool, one click, switch to
Select, double-click" completes a one-point annotation and emits a line
item. -/
theorem degenerate_finish_completes_one_point_measurement :
    (degenerateFinishState.annotations.map fun a => (a.completed, a.points.length))
        = [(true, 1)]
  ∧ degenerateFinishState.items.length = 1
  ∧ scaleOneClickFinishState.currentAnnotation.isSome = true := by
  refine ⟨?_, ?_, ?_⟩ <;>
    simp [degenerateFinishState, scaleOneClickFinishState, oneClickLinearState,
      selectToolAction, handleCanvasMouseDown, handleCanvasDoubleClick,
      loadedState, getPointFromEvent, toolKind, annotColor]

/-- C3: the claim says a tool switch while Drawing either discards the
in-progress annotation or is disallowed, and that a click with one
multi-point tool never appends to an in-progress annotation of a different
tool. The source `setActiveTool` calls keep `currentAnnotation`, so after
"Linear tool, one click, switch to Area, click again" the active tool is
Area while the in-progress annotation is a linear one that just received a
second point. -/
theorem tool_switch_keeps_foreign_in_progress :
    (crossToolClickState.currentAnnotation.map fun a => (a.type, a.points.length))
        = some (AnnotKind.linear, 2)
  ∧ crossToolClickState.activeTool = ToolType.area := by
  constructor <;>
    simp [crossToolClickState, oneClickLinearState, selectToolAction,
      handleCanvasMouseDown, loadedState, getPointFromEvent, toolKind,
      annotColor]

lemma round_hundred : round ((100 : ℝ)) = 100 := by
  rw [round_eq, show (100 : ℝ) + 1 / 2 = 201 / 2 by norm_num]
  apply Int.floor_eq_iff.mpr
  norm_num

lemma round_hundred_div_49 : round ((100 : ℝ) / 49) = 2 := by
  rw [round_eq, show (100 : ℝ) / 49 + 1 / 2 = 249 / 98 by norm_num]
  apply Int.floor_eq_iff.mpr
  norm_num

/-- C4: the line item derived by `addItemFromAnnotation` from a
non-calibration annotation agrees with the spec's Quantity Derivation
(`specQuantity`/`specUnit`), with the stored quantity rounded to 2 decimal
places; a count item's stored quantity is exactly 1. Recomputation from the
same annotation and calibration is deterministic because
`addItemFromAnnotation` is a pure function of them. -/
theorem addItem_matches_spec_derivation (annot : Annotation) (r : ℝ)
    (u : String) (h : annot.type ≠ AnnotKind.scale) :
    ( addItemFromAnnotation r u annot).quantity = round2 (specQuantity r annot)
  ∧ ( addItemFromAnnotation r u annot).unit = specUnit r u annot
  ∧ (annot.type = AnnotKind.count →
      ( addItemFromAnnotation r u annot).quantity = 1) := by
  cases htype : annot.type with
  | scale => exact absurd htype h
  | count =>
    refine ⟨?_, ?_, fun _ => ?_⟩
    · simp [ addItemFromAnnotation, annotQty, specQuantity, htype]
    · simp [ addItemFromAnnotation, annotUnit, specUnit, htype]
    · simp [ addItemFromAnnotation, annotQty, htype, round2, round_hundred]
  | linear =>
    refine ⟨?_, ?_, fun hc => ?_⟩
    · by_cases hr : r > 0 <;>
        simp [ addItemFromAnnotation, annotQty, specQuantity, htype, hr]
    · by_cases hr : r > 0 <;>
        simp [ addItemFromAnnotation, annotUnit, specUnit, htype, hr]
    · exact absurd hc (by simp)
  | area =>
    refine ⟨?_, ?_, fun hc => ?_⟩
    · by_cases hr : r > 0 <;>
        simp [ addItemFromAnnotation, annotQty, specQuantity, htype, hr, pow_two]
    · by_cases hr : r > 0 <;>
        simp [ addItemFromAnnotation, annotUnit, specUnit, htype, hr]
    · exact absurd hc (by simp)

/-- Witness for C4 at the spec's own example: a 50-pixel two-point linear
measurement under calibration 10 pixels per foot. -/
theorem addItem_matches_spec_derivation_witness :
    fiftyPxSegment.type ≠ AnnotKind.scale
  ∧ (( addItemFromAnnotation 10 "ft" fiftyPxSegment).quantity =
        round2 (specQuantity 10 fiftyPxSegment)
    ∧ ( addItemFromAnnotation 10 "ft" fiftyPxSegment).unit =
        specUnit 10 "ft" fiftyPxSegment
    ∧ (fiftyPxSegment.type = AnnotKind.count →
        ( addItemFromAnnotation 10 "ft" fiftyPxSegment).quantity = 1)) :=
  ⟨by simp [fiftyPxSegment],
   addItem_matches_spec_derivation fiftyPxSegment 10 "ft"
     (by simp [fiftyPxSegment])⟩

lemma unitAreaTriangle_area :
    calculatePolygonArea unitAreaTriangle.points = 1 := by
  show calculatePolygonArea [⟨0, 0⟩, ⟨1, 0⟩, ⟨0, 2⟩] = 1
  have hs : shoelaceSum [(⟨0, 0⟩ : AnnotationPoint), ⟨1, 0⟩, ⟨0, 2⟩] = 2 := by
    simp [shoelaceSum, Finset.sum_range_succ, crossTerm]
  rw [calculatePolygonArea, hs]
  norm_num

/-- C6 counterexample: the claim relates the *stored* (2-decimal-rounded)
quantities, but rounding does not commute with dividing by `k²`: for the
triangle of pixel area 1 and `k = 7`, the stored calibrated quantity is
`round2(1/49) = 0.02` while the stored raw quantity divided by `k²` is
`1/49`. -/
theorem stored_area_quantity_not_exact_inverse_square :
    ( addItemFromAnnotation 7 "ft" unitAreaTriangle).quantity ≠
      ( addItemFromAnnotation 0 "ft" unitAreaTriangle).quantity / 7 ^ 2 := by
  have hq7 : annotQty 7 unitAreaTriangle = 1 / 49 := by
    simp only [annotQty, show unitAreaTriangle.type = AnnotKind.area from rfl,
      unitAreaTriangle_area]
    rw [if_pos (by norm_num : (7 : ℝ) > 0)]
    norm_num
  have hq0 : annotQty 0 unitAreaTriangle = 1 := by
    simp only [annotQty, show unitAreaTriangle.type = AnnotKind.area from rfl,
      unitAreaTriangle_area]
    rw [if_neg (lt_irrefl (0 : ℝ))]
  simp only [ addItemFromAnnotation, hq7, hq0, round2]
  rw [show (1 : ℝ) / 49 * 100 = 100 / 49 by norm_num, round_hundred_div_49,
    show (1 : ℝ) * 100 = 100 by norm_num, round_hundred]
  norm_num

/-- C6 (amended): before the 2-decimal rounding that produces the stored
quantity, the derived area quantity under calibration factor `k > 0` is
exactly the uncalibrated quantity divided by `k²`; the stored quantity is
the rounding `round2` of that value. -/
theorem area_quantity_prerounding_inverse_square (annot : Annotation)
    (hA : annot.type = AnnotKind.area) (k : ℝ) (hk : 0 < k) :
    annotQty k annot = annotQty 0 annot / k ^ 2
  ∧ ( addItemFromAnnotation k "ft" annot).quantity =
      round2 (annotQty 0 annot / k ^ 2) := by
  have hmain : annotQty k annot = annotQty 0 annot / k ^ 2 := by
    simp only [annotQty, hA]
    rw [if_pos hk, if_neg (lt_irrefl (0 : ℝ)), pow_two]
  exact ⟨hmain, by rw [ addItemFromAnnotation, hmain]⟩

/-- Witness for C6's amended statement at the unit triangle and `k = 7`. -/
theorem area_quantity_prerounding_inverse_square_witness :
    unitAreaTriangle.type = AnnotKind.area ∧ (0 : ℝ) < 7 ∧
      (annotQty 7 unitAreaTriangle = annotQty 0 unitAreaTriangle / 7 ^ 2
      ∧ ( addItemFromAnnotation 7 "ft" unitAreaTriangle).quantity =
          round2 (annotQty 0 unitAreaTriangle / 7 ^ 2)) :=
  ⟨rfl, by norm_num,
   area_quantity_prerounding_inverse_square unitAreaTriangle rfl 7 (by norm_num)⟩

lemma twoPtsNeNil : ([⟨0, 0⟩, ⟨4, 0⟩] : List AnnotationPoint) ≠ [] := by simp

lemma dupPtsNeNil : ([⟨0, 0⟩, ⟨3, 4⟩] : List AnnotationPoint) ≠ [] := by simp

/-- C7: `calculatePolygonArea` is the absolute value of half the shoelace
sum over the closed ring (consecutive cross terms plus the implicit
last-to-first closing term), returns 0 for every sequence of fewer than 3
points, is invariant under reversing the point order (winding), and maps
the triangle (0,0), (4,0), (0,3) to 6. -/
theorem polygonArea_shoelace_properties :
    (∀ points : List AnnotationPoint, points.length < 3 →
      calculatePolygonArea points = 0)
  ∧ (∀ (points : List AnnotationPoint) (h : points ≠ []),
      calculatePolygonArea points = |closedRingShoelace points h| / 2)
  ∧ (∀ points : List AnnotationPoint,
      calculatePolygonArea points.reverse = calculatePolygonArea points)
  ∧ calculatePolygonArea [⟨0, 0⟩, ⟨4, 0⟩, ⟨0, 3⟩] = 6 := by
  refine ⟨?_, ?_, ?_, ?_⟩
  · intro points hlt
    rcases points with _ | ⟨p, _ | ⟨q, _ | ⟨r, rest⟩⟩⟩
    · simp [calculatePolygonArea, shoelaceSum]
    · simp [calculatePolygonArea, shoelaceSum, crossTerm]
    · have hs : shoelaceSum [p, q] = 0 := by
        simp [shoelaceSum, Finset.sum_range_succ, crossTerm]
        ring
      simp [calculatePolygonArea, hs]
    · exfalso
      simp at hlt
      omega
  · intro points h
    rw [calculatePolygonArea, shoelaceSum_eq_closedRing points h, abs_div]
    norm_num
  · intro points
    rw [calculatePolygonArea, calculatePolygonArea, shoelaceSum_reverse,
      neg_div, abs_neg]
  · have hs : shoelaceSum [(⟨0, 0⟩ : AnnotationPoint), ⟨4, 0⟩, ⟨0, 3⟩] = 12 := by
      simp [shoelaceSum, Finset.sum_range_succ, crossTerm]
      norm_num
    rw [calculatePolygonArea, hs]
    norm_num

/-- Witness for C7 at concrete inputs: a two-point sequence has area 0 and
satisfies the closed-ring characterization. -/
theorem polygonArea_shoelace_properties_witness :
    calculatePolygonArea [(⟨0, 0⟩ : AnnotationPoint), ⟨4, 0⟩] = 0
  ∧ calculatePolygonArea [(⟨0, 0⟩ : AnnotationPoint), ⟨4, 0⟩] =
      |closedRingShoelace [⟨0, 0⟩, ⟨4, 0⟩] twoPtsNeNil| / 2 :=
  ⟨polygonArea_shoelace_properties.1 _ (by simp),
   polygonArea_shoelace_properties.2.1 _ twoPtsNeNil⟩

/-- C10: appending a duplicate of the last point — the extra vertex the
double-click finish gesture records — changes neither the path length (the
duplicate contributes a zero-length segment) nor the polygon area (it
contributes a zero cross term and leaves the closing edge unchanged), so
the derived quantity is unaffected. -/
theorem duplicate_last_point_preserves_measurements
    (points : List AnnotationPoint) (h : points ≠ []) :
    calculatePathLength (points ++ [points.getLast h]) =
      calculatePathLength points
  ∧ calculatePolygonArea (points ++ [points.getLast h]) =
      calculatePolygonArea points := by
  constructor
  · rw [calculatePathLength, calculatePathLength, range_pairSum, range_pairSum,
      pairSum_append_singleton calculateDistance points h]
    have hz : calculateDistance (points.getLast h) (points.getLast h) = 0 := by
      simp [calculateDistance]
    rw [hz, add_zero]
  · have hne : points ++ [points.getLast h] ≠ [] := by simp
    rw [calculatePolygonArea, calculatePolygonArea,
      shoelaceSum_eq_closedRing _ hne, shoelaceSum_eq_closedRing _ h,
      closedRingShoelace, closedRingShoelace,
      pairSum_append_singleton crossTerm points h]
    have hz : crossTerm (points.getLast h) (points.getLast h) = 0 := by
      simp [crossTerm]
    have hlast : (points ++ [points.getLast h]).getLast hne = points.getLast h :=
      List.getLast_concat points
    have hhead : (points ++ [points.getLast h]).head hne = points.head h :=
      List.head_append_left h
    rw [hz, hlast, hhead, add_zero]

/-- Witness for C10 at the concrete segment (0,0)–(3,4). -/
theorem duplicate_last_point_preserves_measurements_witness :
    calculatePathLength
        (([⟨0, 0⟩, ⟨3, 4⟩] : List AnnotationPoint) ++
          [List.getLast [⟨0, 0⟩, ⟨3, 4⟩] dupPtsNeNil]) =
      calculatePathLength [⟨0, 0⟩, ⟨3, 4⟩]
  ∧ calculatePolygonArea
        (([⟨0, 0⟩, ⟨3, 4⟩] : List AnnotationPoint) ++
          [List.getLast [⟨0, 0⟩, ⟨3, 4⟩] dupPtsNeNil]) =
      calculatePolygonArea [⟨0, 0⟩, ⟨3, 4⟩] :=
  duplicate_last_point_preserves_measurements [⟨0, 0⟩, ⟨3, 4⟩] dupPtsNeNil

end

end Structura
